import Mathlib

/-!
Shallow embedding of the ingestion, validation and normalization pipeline of
the build-your-own-radar repository: `src/util/factory.js` and
`src/util/exceptionMessages.js`.  Collaborator modules that are not part of
the source pack (the Radar/Ring/Quadrant/Blip models, ContentValidator,
InputSanitizer, Sheet and GoogleAuth) are modelled from the specification;
each such definition carries a doc comment starting with
`Modelled from the spec:`.

JavaScript idioms are embedded as follows: strings are Lean `String`s and
the per-character operations work on `String.data`; exceptions become
`Except`; `undefined`-or-string values become `Option String`;
`decodeURIComponent` is modelled as the identity (all concrete inputs used
below are free of percent-escapes), while the explicit plus-to-space
replacement step of the URL helpers is kept.
-/

namespace ExceptionMessages

/-- Message constant `TOO_MANY_QUADRANTS` (src/util/exceptionMessages.js). -/
def TOO_MANY_QUADRANTS : String :=
  "There are more than 4 quadrant names listed in your data. Check the quadrant column for errors."

/-- Message constant `TOO_MANY_RINGS` (src/util/exceptionMessages.js). -/
def TOO_MANY_RINGS : String := "More than 4 rings."

/-- Message constant `MISSING_HEADERS` (src/util/exceptionMessages.js). -/
def MISSING_HEADERS : String :=
  "Document is missing one or more required headers or they are misspelled. Check that your document contains headers for \"name\", \"ring\", \"quadrant\", \"isNew\", \"description\"."

/-- Message constant `MISSING_CONTENT` (src/util/exceptionMessages.js). -/
def MISSING_CONTENT : String := "Document is missing content."

/-- Message constant `LESS_THAN_FOUR_QUADRANTS` (src/util/exceptionMessages.js). -/
def LESS_THAN_FOUR_QUADRANTS : String :=
  "There are fewer than 4 quadrant names listed in your data. Check the quadrant column for errors."

/-- Message constant `SHEET_NOT_FOUND` (src/util/exceptionMessages.js). -/
def SHEET_NOT_FOUND : String := "We can’t find the URL Sheet you’ve entered."

/-- Message constant `UNAUTHORIZED` (src/util/exceptionMessages.js). -/
def UNAUTHORIZED : String := "UNAUTHORIZED"

end ExceptionMessages

/-- JavaScript `String.prototype.toLowerCase`, restricted to per-character
(ASCII) lowering, which is all the pipeline relies on. -/
def jsToLowerCase (s : String) : String := ⟨s.data.map Char.toLower⟩

/-- Lodash `_.capitalize`: first character uppercased, the rest lowercased. -/
def jsCapitalize (s : String) : String :=
  match s.data with
  | [] => ""
  | c :: cs => ⟨c.toUpper :: cs.map Char.toLower⟩

/-- JavaScript whitespace for trimming purposes (the header and field values
of this pipeline only ever carry these). -/
def jsWhitespace (c : Char) : Bool := c == ' ' || c == '\t' || c == '\n' || c == '\r'

/-- JavaScript `String.prototype.trim`: drop leading and trailing
whitespace. -/
def jsTrim (s : String) : String :=
  ⟨((s.data.dropWhile jsWhitespace).reverse.dropWhile jsWhitespace).reverse⟩

/-- JavaScript `String.prototype.endsWith`. -/
def jsEndsWith (s t : String) : Bool := t.data.isSuffixOf s.data

/-- JavaScript `str.substring(0, str.length - n)`: drop the last `n`
characters. -/
def jsDropRight (s : String) (n : Nat) : String := ⟨s.data.take (s.data.length - n)⟩

/-- JavaScript coercion of an `undefined`-or-string value to a string, as in
the title concatenation `documentTitle`, separator, `sheetName`. -/
def jsStr : Option String → String
  | none => "undefined"
  | some s => s

/-- JavaScript truthiness of an `undefined`-or-string value: `undefined` and
the empty string are falsy. -/
def jsFalsyStr : Option String → Bool
  | none => true
  | some s => s == ""

/-- Error type `MalformedDataError` (src/exceptions/malformedDataError.js is a plain
message wrapper; its shape is fixed by its uses in src/util/factory.js). -/
structure MalformedDataError where
  message : String
deriving DecidableEq, Repr

/-- The Ring model: `{name, order}` (spec §3). -/
structure RadarRing where
  name : String
  order : Nat
deriving DecidableEq, Repr

/-- The Blip model (spec §3).  `ring` is the result of the `ringMap` lookup
performed in `plotRadar`. -/
structure Blip where
  name : String
  ring : Option RadarRing
  isNew : Bool
  topic : String
  description : String
deriving DecidableEq, Repr

/-- The Quadrant model: capitalized display name plus its blips (spec §3). -/
structure Quadrant where
  name : String
  blips : List Blip
deriving DecidableEq, Repr

/-- The Radar model: quadrants plus sheet-navigation metadata (spec §3). -/
structure Radar where
  quadrants : List Quadrant
  currentSheetName : Option String
  alternativeSheetNames : List String
deriving DecidableEq, Repr

/-- A sanitized row as consumed by `plotRadar` (the canonical blip record of
spec §4.4; `isNew` is still the raw string, `plotRadar` itself applies the
boolean rule). -/
structure RawBlip where
  name : String
  ring : String
  quadrant : String
  isNew : String
  topic : String
  description : String
deriving DecidableEq, Repr

/-- First occurrences of the elements of a list, in order, each exactly once:
the key order produced by lodash `_.uniqBy` (and by iteration over a JS
object whose keys are inserted on first sight). -/
def firstSeenAux {α : Type} [DecidableEq α] (seen : List α) : List α → List α
  | [] => []
  | x :: xs => if x ∈ seen then firstSeenAux seen xs else x :: firstSeenAux (x :: seen) xs

/-- Function `firstSeen l` is `l` with every element kept only at its first
occurrence. -/
def firstSeen {α : Type} [DecidableEq α] (l : List α) : List α := firstSeenAux [] l

/-- Constant `maxRings = 4` (src/util/factory.js line 38). -/
def maxRings : Nat := 4

/-- The ring-construction loop of `plotRadar` (src/util/factory.js lines
40-45): walk the distinct ring names with a running index, fail with
`TOO_MANY_RINGS` if the index reaches `maxRings`, otherwise create a `Ring`
whose `order` is the index. -/
def buildRings : List String → Nat → Except MalformedDataError (List RadarRing)
  | [], _ => .ok []
  | n :: rest, i =>
    if i = maxRings then .error ⟨ExceptionMessages.TOO_MANY_RINGS⟩
    else
      match buildRings rest (i + 1) with
      | .error e => .error e
      | .ok rs => .ok (⟨n, i⟩ :: rs)

/-- The expression `_.map(_.uniqBy(blips, ring), ring)` of
src/util/factory.js line 36: the distinct ring values of the rows in
first-seen order. -/
def ringNamesOf (blips : List RawBlip) : List String :=
  firstSeen (blips.map (·.ring))

/-- The ring stage of `plotRadar`. -/
def plotRadarRings (blips : List RawBlip) : Except MalformedDataError (List RadarRing) :=
  buildRings (ringNamesOf blips) 0

/-- Lookup `ringMap[blip.ring]` (src/util/factory.js line 53). -/
def ringLookup (rings : List RadarRing) (n : String) : Option RadarRing :=
  rings.find? (fun r => r.name == n)

/-- The lowercased comparison of the raw isNew value against the literal
true string (src/util/factory.js line 53). -/
def isNewFlag (raw : String) : Bool := decide (jsToLowerCase raw = "true")

/-- Construction of one `Blip` from a sanitized row (src/util/factory.js
lines 52-54). -/
def mkBlip (rings : List RadarRing) (b : RawBlip) : Blip :=
  ⟨b.name, ringLookup rings b.ring, isNewFlag b.isNew, b.topic, b.description⟩

/-- One step of the quadrant-grouping loop (src/util/factory.js lines 48-55):
on first sight of a quadrant value a `Quadrant` with the capitalized name is
created, then the blip is appended to that quadrant. -/
def addBlipToQuadrants (qs : List (String × Quadrant)) (key : String) (b : Blip) :
    List (String × Quadrant) :=
  match qs with
  | [] => [(key, ⟨jsCapitalize key, [b]⟩)]
  | (k, q) :: rest =>
    if k = key then (k, ⟨q.name, q.blips ++ [b]⟩) :: rest
    else (k, q) :: addBlipToQuadrants rest key b

/-- The quadrant-grouping loop of `plotRadar` (src/util/factory.js lines
47-55), keyed by the raw quadrant value in first-seen order.  (JavaScript
objects would order integer-like keys first; quadrant names are not
integer-like, so plain insertion order is modelled.) -/
def groupQuadrants (rings : List RadarRing) (blips : List RawBlip) : List (String × Quadrant) :=
  blips.foldl (fun qs b => addBlipToQuadrants qs b.quadrant (mkBlip rings b)) []

/-- Modelled from the spec: the quadrant assembly of the Radar model
(src/models/radar.js is not in the source pack).  Per spec §4.4 step 3 and
§8, after grouping exactly four quadrants must exist: more than four fails
with `TOO_MANY_QUADRANTS`, fewer with `LESS_THAN_FOUR_QUADRANTS`; on success
the current sheet name and the alternative sheet names are attached
(src/util/factory.js lines 57-70 always attach both, the guards there are
always true). -/
def assembleRadar (qs : List Quadrant) (current : Option String) (alts : List String) :
    Except MalformedDataError Radar :=
  if 4 < qs.length then .error ⟨ExceptionMessages.TOO_MANY_QUADRANTS⟩
  else if qs.length < 4 then .error ⟨ExceptionMessages.LESS_THAN_FOUR_QUADRANTS⟩
  else .ok ⟨qs, current, alts⟩

/-- Stripping of a trailing `.csv` and then of a trailing `.json` from the
display title (src/util/factory.js lines 27-32; the two `if`s run in
sequence on the updated title). -/
def stripTitle (title : String) : String :=
  let t1 := if jsEndsWith title ".csv" then jsDropRight title 4 else title
  if jsEndsWith t1 ".json" then jsDropRight t1 5 else t1

/-- What `plotRadar` hands to the rendering collaborator: the document title
it sets and the assembled Radar. -/
structure PlotResult where
  title : String
  radar : Radar
deriving DecidableEq, Repr

/-- Function `plotRadar` (src/util/factory.js lines 26-75): strip the title, build the
rings (failing with `TOO_MANY_RINGS` past four), group blips into quadrants,
assemble the Radar and hand it to the renderer. -/
def plotRadar (title : String) (blips : List RawBlip) (currentRadarName : Option String)
    (alternativeRadars : List String) : Except MalformedDataError PlotResult :=
  match plotRadarRings blips with
  | .error e => .error e
  | .ok rings =>
    match assembleRadar ((groupQuadrants rings blips).map Prod.snd)
        currentRadarName alternativeRadars with
    | .error e => .error e
    | .ok radar => .ok ⟨stripTitle title, radar⟩

/-- Number of distinct quadrant values in a row set (spec §3, §8). -/
def distinctQuadrantCount (blips : List RawBlip) : Nat :=
  (blips.map (·.quadrant)).toFinset.card

/-- Number of distinct ring values in a row set (spec §3, §8). -/
def distinctRingCount (blips : List RawBlip) : Nat :=
  (blips.map (·.ring)).toFinset.card

theorem mem_firstSeenAux {α : Type} [DecidableEq α] (seen l : List α) (a : α) :
    a ∈ firstSeenAux seen l ↔ a ∈ l ∧ a ∉ seen := by
  induction l generalizing seen with
  | nil => simp [firstSeenAux]
  | cons x xs ih =>
    by_cases hx : x ∈ seen
    · rw [firstSeenAux, if_pos hx, ih]
      constructor
      · rintro ⟨h1, h2⟩
        exact ⟨List.mem_cons_of_mem _ h1, h2⟩
      · rintro ⟨h1, h2⟩
        rcases List.mem_cons.mp h1 with rfl | h1
        · exact absurd hx h2
        · exact ⟨h1, h2⟩
    · rw [firstSeenAux, if_neg hx]
      constructor
      · intro hmem
        rcases List.mem_cons.mp hmem with rfl | hmem
        · exact ⟨List.mem_cons_self _ _, hx⟩
        · obtain ⟨h1, h2⟩ := (ih _).mp hmem
          exact ⟨List.mem_cons_of_mem _ h1,
            fun hs => h2 (List.mem_cons_of_mem _ hs)⟩
      · rintro ⟨h1, h2⟩
        by_cases hax : a = x
        · exact hax ▸ List.mem_cons_self _ _
        · rcases List.mem_cons.mp h1 with rfl | h1
          · exact absurd rfl hax
          · refine List.mem_cons_of_mem _ ((ih _).mpr ⟨h1, ?_⟩)
            intro hs
            rcases List.mem_cons.mp hs with rfl | hs
            · exact hax rfl
            · exact h2 hs

theorem nodup_firstSeenAux {α : Type} [DecidableEq α] (seen l : List α) :
    (firstSeenAux seen l).Nodup := by
  induction l generalizing seen with
  | nil => simp [firstSeenAux]
  | cons x xs ih =>
    by_cases hx : x ∈ seen
    · rw [firstSeenAux, if_pos hx]
      exact ih seen
    · rw [firstSeenAux, if_neg hx]
      refine List.nodup_cons.mpr ⟨?_, ih _⟩
      intro hmem
      exact ((mem_firstSeenAux _ _ _).mp hmem).2 (List.mem_cons_self x seen)

theorem nodup_firstSeen {α : Type} [DecidableEq α] (l : List α) : (firstSeen l).Nodup :=
  nodup_firstSeenAux [] l

theorem mem_firstSeen {α : Type} [DecidableEq α] (l : List α) (a : α) :
    a ∈ firstSeen l ↔ a ∈ l := by
  rw [firstSeen, mem_firstSeenAux]
  simp

theorem toFinset_firstSeen {α : Type} [DecidableEq α] (l : List α) :
    (firstSeen l).toFinset = l.toFinset := by
  ext a
  simp [List.mem_toFinset, mem_firstSeen]

theorem length_firstSeen {α : Type} [DecidableEq α] (l : List α) :
    (firstSeen l).length = l.toFinset.card := by
  rw [← toFinset_firstSeen]
  exact (List.toFinset_card_of_nodup (nodup_firstSeen l)).symm

theorem length_ringNamesOf (blips : List RawBlip) :
    (ringNamesOf blips).length = distinctRingCount blips := by
  rw [ringNamesOf, distinctRingCount, length_firstSeen]

theorem buildRings_ok (names : List String) (i : Nat) (h : names.length + i ≤ 4) :
    ∃ rs, buildRings names i = .ok rs ∧ rs.map RadarRing.name = names ∧
      rs.map RadarRing.order = List.range' i names.length := by
  induction names generalizing i with
  | nil => exact ⟨[], rfl, rfl, rfl⟩
  | cons n rest ih =>
    have hi : ¬ i = maxRings := by
      rw [maxRings]
      simp only [List.length_cons] at h
      omega
    obtain ⟨rs, h1, h2, h3⟩ := ih (i + 1) (by simp only [List.length_cons] at h; omega)
    refine ⟨⟨n, i⟩ :: rs, ?_, ?_, ?_⟩
    · rw [buildRings, if_neg hi, h1]
    · simp [h2]
    · simp only [List.map_cons, List.length_cons, List.range'_succ]
      rw [h3]

theorem buildRings_err (names : List String) (i : Nat) (hi : i ≤ 4)
    (h : 4 < names.length + i) :
    buildRings names i = .error ⟨ExceptionMessages.TOO_MANY_RINGS⟩ := by
  induction names generalizing i with
  | nil =>
    simp only [List.length_nil, Nat.zero_add] at h
    omega
  | cons n rest ih =>
    by_cases hE : i = maxRings
    · rw [buildRings, if_pos hE]
    · rw [maxRings] at hE
      rw [buildRings, if_neg (by rw [maxRings]; exact hE),
        ih (i + 1) (by omega) (by simp only [List.length_cons] at h; omega)]

def quadrantKeys (qs : List (String × Quadrant)) : List String := qs.map Prod.fst

theorem quadrantKeys_addBlip (qs : List (String × Quadrant)) (key : String) (b : Blip) :
    quadrantKeys (addBlipToQuadrants qs key b) =
      if key ∈ quadrantKeys qs then quadrantKeys qs else quadrantKeys qs ++ [key] := by
  induction qs with
  | nil => simp [addBlipToQuadrants, quadrantKeys]
  | cons p rest ih =>
    obtain ⟨k, q⟩ := p
    by_cases hk : k = key
    · subst hk
      simp [addBlipToQuadrants, quadrantKeys]
    · have hne : ¬ key = k := fun hcontra => hk hcontra.symm
      rw [addBlipToQuadrants, if_neg hk]
      by_cases hmem : key ∈ quadrantKeys rest
      · simp only [quadrantKeys, List.map_cons] at *
        rw [ih, if_pos hmem, if_pos (List.mem_cons_of_mem _ hmem)]
      · simp only [quadrantKeys, List.map_cons] at *
        rw [ih, if_neg hmem,
          if_neg (by simp [List.mem_cons, hne, hmem]), List.cons_append]

theorem quadrantKeys_foldl_nodup (rings : List RadarRing) (blips : List RawBlip) :
    ∀ acc, (quadrantKeys acc).Nodup →
      (quadrantKeys (blips.foldl
        (fun qs b => addBlipToQuadrants qs b.quadrant (mkBlip rings b)) acc)).Nodup := by
  induction blips with
  | nil =>
    intro acc h
    simpa using h
  | cons b bs ih =>
    intro acc h
    rw [List.foldl_cons]
    apply ih
    rw [quadrantKeys_addBlip]
    by_cases hmem : b.quadrant ∈ quadrantKeys acc
    · rwa [if_pos hmem]
    · rw [if_neg hmem]
      simp [List.nodup_append, h, hmem]

theorem quadrantKeys_foldl_toFinset (rings : List RadarRing) (blips : List RawBlip) :
    ∀ acc, (quadrantKeys (blips.foldl
        (fun qs b => addBlipToQuadrants qs b.quadrant (mkBlip rings b)) acc)).toFinset =
      (quadrantKeys acc).toFinset ∪ (blips.map (·.quadrant)).toFinset := by
  induction blips with
  | nil =>
    intro acc
    simp
  | cons b bs ih =>
    intro acc
    rw [List.foldl_cons, ih]
    have hstep : (quadrantKeys (addBlipToQuadrants acc b.quadrant (mkBlip rings b))).toFinset =
        insert b.quadrant (quadrantKeys acc).toFinset := by
      rw [quadrantKeys_addBlip]
      by_cases hmem : b.quadrant ∈ quadrantKeys acc
      · rw [if_pos hmem]
        exact (Finset.insert_eq_self.mpr (List.mem_toFinset.mpr hmem)).symm
      · rw [if_neg hmem]
        ext a
        simp [List.mem_toFinset, List.mem_append, or_comm]
    rw [hstep]
    simp [List.map_cons, List.toFinset_cons, Finset.insert_union, Finset.union_insert]

theorem length_groupQuadrants (rings : List RadarRing) (blips : List RawBlip) :
    (groupQuadrants rings blips).length = distinctQuadrantCount blips := by
  have hnodup := quadrantKeys_foldl_nodup rings blips [] (by simp [quadrantKeys])
  have hcard := List.toFinset_card_of_nodup hnodup
  rw [quadrantKeys_foldl_toFinset] at hcard
  rw [groupQuadrants, distinctQuadrantCount]
  have hq : (quadrantKeys (List.foldl
      (fun qs b => addBlipToQuadrants qs b.quadrant (mkBlip rings b)) [] blips)).length =
      (List.foldl (fun qs b => addBlipToQuadrants qs b.quadrant (mkBlip rings b))
        [] blips).length := by
    simp [quadrantKeys]
  rw [← hq, ← hcard]
  simp [quadrantKeys]

theorem assembleRadar_ok (qs : List Quadrant) (cur : Option String) (alts : List String)
    (r : Radar) (h : assembleRadar qs cur alts = .ok r) :
    r.quadrants = qs ∧ r.currentSheetName = cur ∧ r.alternativeSheetNames = alts ∧
      qs.length = 4 := by
  rw [assembleRadar] at h
  split at h
  · exact absurd h (by simp)
  · split at h
    · exact absurd h (by simp)
    · injection h with h
      subst h
      refine ⟨rfl, rfl, rfl, by omega⟩

theorem plotRadar_ok (title : String) (blips : List RawBlip) (cur : Option String)
    (alts : List String) (res : PlotResult) (h : plotRadar title blips cur alts = .ok res) :
    res.title = stripTitle title ∧ res.radar.currentSheetName = cur ∧
      res.radar.alternativeSheetNames = alts ∧ distinctQuadrantCount blips = 4 := by
  rw [plotRadar] at h
  cases hr : plotRadarRings blips with
  | error e =>
    rw [hr] at h
    exact absurd h (by simp)
  | ok rings =>
    rw [hr] at h
    dsimp only at h
    cases ha : assembleRadar ((groupQuadrants rings blips).map Prod.snd) cur alts with
    | error e =>
      rw [ha] at h
      exact absurd h (by simp)
    | ok radar =>
      rw [ha] at h
      dsimp only at h
      injection h with h
      subst h
      obtain ⟨hq, hc, haltl, hlen⟩ := assembleRadar_ok _ _ _ _ ha
      rw [List.length_map, length_groupQuadrants] at hlen
      exact ⟨rfl, hc, haltl, hlen⟩

/-- C1: for every sanitized row set handed to model construction (with ring
overflow, the only earlier builder error, absent), building the radar fails
with `LESS_THAN_FOUR_QUADRANTS` when the rows contain fewer than 4 distinct
quadrant values, fails with `TOO_MANY_QUADRANTS` when they contain more than
4, and succeeds when they contain exactly 4; the enforcement sits in the
builder itself, after grouping, with no ContentValidator pre-check
involved. -/
theorem c1_builder_enforces_quadrant_cardinality (title : String) (blips : List RawBlip)
    (cur : Option String) (alts : List String) (hr : distinctRingCount blips ≤ 4) :
    (distinctQuadrantCount blips < 4 →
      plotRadar title blips cur alts = .error ⟨ExceptionMessages.LESS_THAN_FOUR_QUADRANTS⟩) ∧
    (4 < distinctQuadrantCount blips →
      plotRadar title blips cur alts = .error ⟨ExceptionMessages.TOO_MANY_QUADRANTS⟩) ∧
    (distinctQuadrantCount blips = 4 →
      ∃ res, plotRadar title blips cur alts = .ok res) := by
  obtain ⟨rs, h1, h2, h3⟩ := buildRings_ok (ringNamesOf blips) 0
    (by rw [length_ringNamesOf]; omega)
  have hrings : plotRadarRings blips = .ok rs := h1
  have hmap : ((groupQuadrants rs blips).map Prod.snd).length = distinctQuadrantCount blips := by
    rw [List.length_map]
    exact length_groupQuadrants rs blips
  refine ⟨?_, ?_, ?_⟩
  · intro hq
    rw [plotRadar, hrings]
    dsimp only
    rw [assembleRadar, if_neg (by rw [hmap]; omega), if_pos (by rw [hmap]; omega)]
  · intro hq
    rw [plotRadar, hrings]
    dsimp only
    rw [assembleRadar, if_pos (by rw [hmap]; omega)]
  · intro hq
    refine ⟨⟨stripTitle title, ⟨(groupQuadrants rs blips).map Prod.snd, cur, alts⟩⟩, ?_⟩
    rw [plotRadar, hrings]
    dsimp only
    rw [assembleRadar, if_neg (by rw [hmap]; omega), if_neg (by rw [hmap]; omega)]

/-- Witness for C1 at a concrete input: an empty row set has zero distinct
quadrant values and the build fails with `LESS_THAN_FOUR_QUADRANTS`. -/
theorem c1_builder_enforces_quadrant_cardinality_witness :
    plotRadar "t" [] none [] = .error ⟨ExceptionMessages.LESS_THAN_FOUR_QUADRANTS⟩ :=
  (c1_builder_enforces_quadrant_cardinality "t" [] none [] (by decide)).1 (by decide)

/-- C2: for every sanitized row set with more than 4 distinct ring values,
building the radar fails with the `MalformedDataError` carrying the
`TOO_MANY_RINGS` message; with k ≤ 4 distinct ring values, each distinct ring
is created exactly once, in first-seen order, with order values `0..k-1`.
(The embedding is a pure function of the row list, so the result is
deterministic for a fixed row order.) -/
theorem c2_ring_construction (title : String) (blips : List RawBlip)
    (cur : Option String) (alts : List String) :
    (4 < distinctRingCount blips →
      plotRadar title blips cur alts = .error ⟨ExceptionMessages.TOO_MANY_RINGS⟩) ∧
    (distinctRingCount blips ≤ 4 →
      ∃ rs, plotRadarRings blips = .ok rs ∧
        rs.map RadarRing.name = ringNamesOf blips ∧
        (rs.map RadarRing.name).Nodup ∧
        (∀ n, n ∈ rs.map RadarRing.name ↔ n ∈ blips.map RawBlip.ring) ∧
        rs.map RadarRing.order = List.range (distinctRingCount blips)) := by
  constructor
  · intro h
    have herr : plotRadarRings blips = .error ⟨ExceptionMessages.TOO_MANY_RINGS⟩ :=
      buildRings_err _ 0 (by omega) (by rw [length_ringNamesOf]; omega)
    rw [plotRadar, herr]
  · intro h
    obtain ⟨rs, h1, h2, h3⟩ := buildRings_ok (ringNamesOf blips) 0
      (by rw [length_ringNamesOf]; omega)
    refine ⟨rs, h1, h2, ?_, ?_, ?_⟩
    · rw [h2, ringNamesOf]
      exact nodup_firstSeen _
    · intro n
      rw [h2, ringNamesOf, mem_firstSeen]
    · rw [h3, ← length_ringNamesOf, List.range_eq_range']

/-- Concrete row set with five distinct ring values. -/
def fiveRingRows : List RawBlip :=
  [⟨"a", "r1", "q", "", "", ""⟩, ⟨"b", "r2", "q", "", "", ""⟩, ⟨"c", "r3", "q", "", "", ""⟩,
   ⟨"d", "r4", "q", "", "", ""⟩, ⟨"e", "r5", "q", "", "", ""⟩]

/-- Witness for C2 at a concrete input: five distinct ring values fail with
`TOO_MANY_RINGS`. -/
theorem c2_ring_construction_witness :
    plotRadar "t" fiveRingRows none [] = .error ⟨ExceptionMessages.TOO_MANY_RINGS⟩ :=
  (c2_ring_construction "t" fiveRingRows none []).1 (by decide)

/-- Case-insensitive character-list comparison: equal lengths and pointwise
equal lowercased characters. -/
def charsCaseEq : List Char → List Char → Bool
  | [], [] => true
  | a :: l, b :: m => decide (a.toLower = b.toLower) && charsCaseEq l m
  | _ :: _, [] => false
  | [], _ :: _ => false

/-- Case-insensitive string comparison. -/
def eqCaseInsensitive (s t : String) : Bool := charsCaseEq s.data t.data

theorem map_toLower_eq_charsCaseEq (l m : List Char) :
    decide (l.map Char.toLower = m.map Char.toLower) = charsCaseEq l m := by
  induction l generalizing m with
  | nil =>
    cases m with
    | nil => rfl
    | cons b bs => simp [charsCaseEq]
  | cons a l ih =>
    cases m with
    | nil => simp [charsCaseEq]
    | cons b bs =>
      rw [charsCaseEq, ← ih]
      by_cases h1 : a.toLower = b.toLower <;>
        by_cases h2 : l.map Char.toLower = bs.map Char.toLower <;>
          simp [h1, h2]

theorem isNewFlag_eq_eqCaseInsensitive (s : String) :
    isNewFlag s = eqCaseInsensitive s "true" := by
  rw [isNewFlag, eqCaseInsensitive, ← map_toLower_eq_charsCaseEq]
  rw [decide_eq_decide]
  have hm : ("true" : String).data.map Char.toLower = ("true" : String).data := by decide
  rw [hm, jsToLowerCase, String.ext_iff]

/-- C3: the isNew flag computed by the builder is true exactly when the raw
isNew value compares equal to the literal "true" case-insensitively; every
other raw value, including the empty string, "false" and "yes", yields
false. -/
theorem c3_isNew_boolean_rule :
    (∀ (rings : List RadarRing) (b : RawBlip),
      (mkBlip rings b).isNew = eqCaseInsensitive b.isNew "true") ∧
    isNewFlag "true" = true ∧ isNewFlag "True" = true ∧ isNewFlag "TRUE" = true ∧
    isNewFlag "" = false ∧ isNewFlag "false" = false ∧ isNewFlag "yes" = false := by
  refine ⟨fun rings b => ?_, by decide, by decide, by decide, by decide, by decide, by decide⟩
  exact isNewFlag_eq_eqCaseInsensitive b.isNew

/-- The exceptions reaching `plotError` (src/util/factory.js lines 356-377):
a `MalformedDataError`, a `SheetNotFoundError`, or anything else. -/
inductive RadarException where
  | malformedData (message : String)
  | sheetNotFound (message : String)
  | otherFailure
deriving DecidableEq, Repr

/-- The default error text of `plotError` (src/util/factory.js line 357). -/
def defaultErrorDisplay : String := "Oops! We can\x27t find the data"

/-- The message displayed by `plotError` (src/util/factory.js lines 356-366):
the default text with the exception message appended for
`MalformedDataError`, the exception message alone for `SheetNotFoundError`,
and the default text for anything else. -/
def plotErrorText : RadarException → String
  | .malformedData m => defaultErrorDisplay ++ m
  | .sheetNotFound m => m
  | .otherFailure => defaultErrorDisplay

/-- Counterexample to C8: a `MalformedDataError` reaching the presentation
boundary is displayed with a fixed prefix prepended to its message, not with
the message unmodified. -/
theorem c8_counterexample :
    plotErrorText (.malformedData ExceptionMessages.TOO_MANY_RINGS) ≠
      ExceptionMessages.TOO_MANY_RINGS := by decide

/-- C8 (amended): the seven named failure kinds carry fixed pairwise-distinct
messages; the presentation boundary displays a `SheetNotFoundError` message
verbatim but prepends the fixed default text to a `MalformedDataError`
message (and the unauthorized path composes its own identity-bearing text
instead of the UNAUTHORIZED constant). -/
theorem c8_messages_distinct_and_display :
    [ExceptionMessages.TOO_MANY_QUADRANTS, ExceptionMessages.LESS_THAN_FOUR_QUADRANTS,
     ExceptionMessages.TOO_MANY_RINGS, ExceptionMessages.MISSING_HEADERS,
     ExceptionMessages.MISSING_CONTENT, ExceptionMessages.SHEET_NOT_FOUND,
     ExceptionMessages.UNAUTHORIZED].Nodup ∧
    (∀ m, plotErrorText (.sheetNotFound m) = m) ∧
    (∀ m, plotErrorText (.malformedData m) = defaultErrorDisplay ++ m) :=
  ⟨by decide, fun _ => rfl, fun _ => rfl⟩

/-- The required headers (spec §3, §4.3). -/
def requiredHeaders : List String := ["name", "ring", "quadrant", "isNew", "description"]

/-- Modelled from the spec: `ContentValidator.verifyContent`
(src/util/contentValidator.js is not in the source pack).  Per spec §7,
`MISSING_CONTENT` is raised when the source yields no content, before any
header check is attempted; the validator is constructed from the column
names alone at every call site in src/util/factory.js. -/
def verifyContent (columnNames : List String) : Except MalformedDataError Unit :=
  if columnNames.isEmpty then .error ⟨ExceptionMessages.MISSING_CONTENT⟩ else .ok ()

/-- Modelled from the spec: `ContentValidator.verifyHeaders`
(src/util/contentValidator.js is not in the source pack).  Per spec §4.3 the
required header names must all be present, case-insensitively, ignoring
order and extra headers; otherwise `MISSING_HEADERS` is raised. -/
def verifyHeaders (columnNames : List String) : Except MalformedDataError Unit :=
  if requiredHeaders.all
      (fun h => columnNames.any (fun c => jsToLowerCase (jsTrim c) == jsToLowerCase h)) then
    .ok ()
  else .error ⟨ExceptionMessages.MISSING_HEADERS⟩

/-- Field lookup in an already-flattened row (column name → value mapping). -/
def fieldOf (row : List (String × String)) (field : String) : String :=
  match row.lookup field with
  | some v => v
  | none => ""

/-- Modelled from the spec: `InputSanitizer.sanitize` for already-flattened
rows (src/util/inputSanitizer.js is not in the source pack).  Per spec §4.4
it trims and case-normalizes the ring and quadrant fields used for grouping
and passes name, description and topic through; the raw isNew string is kept
because `plotRadar` (src/util/factory.js line 53) applies the boolean rule
itself. -/
def sanitizeRowFlat (row : List (String × String)) : RawBlip :=
  { name := fieldOf row "name"
    ring := jsToLowerCase (jsTrim (fieldOf row "ring"))
    quadrant := jsToLowerCase (jsTrim (fieldOf row "quadrant"))
    isNew := fieldOf row "isNew"
    topic := fieldOf row "topic"
    description := fieldOf row "description" }

def headerIndexOfAux (p : String → Bool) : List String → Nat → Option Nat
  | [], _ => none
  | c :: rest, i => if p c then some i else headerIndexOfAux p rest (i + 1)

/-- Index of a required field among the header cells, case-insensitively. -/
def headerIndexOf (header : List String) (field : String) : Option Nat :=
  headerIndexOfAux (fun c => jsToLowerCase (jsTrim c) == jsToLowerCase field) header 0

/-- Cell of a raw spreadsheet row at the position of the given field. -/
def cellOf (row : List String) (header : List String) (field : String) : String :=
  match headerIndexOf header field with
  | some i => (row.get? i).getD ""
  | none => ""

/-- Modelled from the spec: `InputSanitizer.sanitizeForProtectedSheet`
(src/util/inputSanitizer.js is not in the source pack).  Per spec §4.4 this
variant takes a raw spreadsheet row plus the header row and performs a
header-index lookup, producing the same canonical record shape as
`sanitizeRowFlat`. -/
def sanitizeForProtectedSheet (row : List String) (header : List String) : RawBlip :=
  { name := cellOf row header "name"
    ring := jsToLowerCase (jsTrim (cellOf row header "ring"))
    quadrant := jsToLowerCase (jsTrim (cellOf row header "quadrant"))
    isNew := cellOf row header "isNew"
    topic := cellOf row header "topic"
    description := cellOf row header "description" }

/-- Defaulting of a falsy sheet name to the first workbook sheet (src/util/factory.js
lines 93-95): a missing or empty sheet name defaults to the first sheet name
of the workbook (staying undefined when there is none). -/
def resolveSheetName (sheetName : Option String) (sheetNames : List String) : Option String :=
  if jsFalsyStr sheetName then sheetNames.head? else sheetName

/-- Function `createBlipsForProtectedSheet` (src/util/factory.js lines 92-106):
default the sheet name, validate (the `values.forEach` loop runs the
validator once per row, always on `values[0]`, so it is equivalent to one
run when rows exist and does not run at all on an empty value set), shift
off the header row, sanitize the remaining rows and plot, passing the
resolved sheet name as the current radar name and the full sheet-name list
as the alternatives. -/
def createBlipsForProtectedSheet (sheetName : Option String) (documentTitle : String)
    (values : List (List String)) (sheetNames : List String) :
    Except MalformedDataError PlotResult :=
  let sn := resolveSheetName sheetName sheetNames
  match values with
  | [] => plotRadar (documentTitle ++ " - " ++ jsStr sn) [] sn sheetNames
  | header :: rest =>
    match verifyContent header with
    | .error e => .error e
    | .ok _ =>
      match verifyHeaders header with
      | .error e => .error e
      | .ok _ =>
        plotRadar (documentTitle ++ " - " ++ jsStr sn)
          (rest.map (fun row => sanitizeForProtectedSheet row header)) sn sheetNames

/-- C7: for every successful sheet ingestion, a missing (or empty, hence
falsy) caller-supplied sheet name defaults to the first sheet name of the
workbook as the current sheet, and the current sheet name together with the
complete ordered list of alternative sheet names is unconditionally attached
to the resulting Radar. -/
theorem c7_sheet_names_attached (sheetName : Option String) (documentTitle : String)
    (values : List (List String)) (sheetNames : List String) (res : PlotResult)
    (h : createBlipsForProtectedSheet sheetName documentTitle values sheetNames = .ok res) :
    res.radar.alternativeSheetNames = sheetNames ∧
    res.radar.currentSheetName = resolveSheetName sheetName sheetNames ∧
    (sheetName = none → res.radar.currentSheetName = sheetNames.head?) := by
  have hfields : res.radar.currentSheetName = resolveSheetName sheetName sheetNames ∧
      res.radar.alternativeSheetNames = sheetNames := by
    rw [createBlipsForProtectedSheet.eq_def] at h
    cases values with
    | nil =>
      obtain ⟨-, hc, ha, -⟩ := plotRadar_ok _ _ _ _ _ h
      exact ⟨hc, ha⟩
    | cons header rest =>
      dsimp only at h
      cases hvc : verifyContent header with
      | error e =>
        rw [hvc] at h
        exact absurd h (by simp)
      | ok u =>
        rw [hvc] at h
        dsimp only at h
        cases hvh : verifyHeaders header with
        | error e =>
          rw [hvh] at h
          exact absurd h (by simp)
        | ok u =>
          rw [hvh] at h
          dsimp only at h
          obtain ⟨-, hc, ha, -⟩ := plotRadar_ok _ _ _ _ _ h
          exact ⟨hc, ha⟩
  refine ⟨hfields.2, hfields.1, fun hnone => ?_⟩
  rw [hfields.1, hnone, resolveSheetName]
  simp [jsFalsyStr]

/-- A concrete protected-sheet value set: header row plus four rows covering
four distinct quadrants. -/
def demoSheetValues : List (List String) :=
  [["name", "ring", "quadrant", "isNew", "description"],
   ["A", "Adopt", "Tools", "true", "d1"],
   ["B", "Adopt", "Techniques", "false", "d2"],
   ["C", "Trial", "Platforms", "TRUE", "d3"],
   ["D", "Trial", "Languages", "", "d4"]]

/-- A concrete workbook sheet-name list. -/
def demoSheetNames : List String := ["Sheet One", "Sheet Two"]

/-- The Radar produced by the concrete protected-sheet ingestion. -/
def demoProtectedResult : PlotResult :=
  (createBlipsForProtectedSheet none "Doc" demoSheetValues demoSheetNames).toOption.getD
    ⟨"", ⟨[], none, []⟩⟩

/-- Witness for C7 at the concrete ingestion: the build succeeds, the
alternative sheet names are attached in full and the current sheet defaults
to the first workbook sheet. -/
theorem c7_sheet_names_attached_witness :
    (createBlipsForProtectedSheet none "Doc" demoSheetValues demoSheetNames).toOption =
        some demoProtectedResult ∧
    demoProtectedResult.radar.alternativeSheetNames = demoSheetNames ∧
    demoProtectedResult.radar.currentSheetName = some "Sheet One" := by
  have h : createBlipsForProtectedSheet none "Doc" demoSheetValues demoSheetNames =
      .ok demoProtectedResult := by rfl
  obtain ⟨h1, h2, h3⟩ := c7_sheet_names_attached none "Doc" demoSheetValues demoSheetNames
    demoProtectedResult h
  refine ⟨by rw [h]; rfl, h1, ?_⟩
  rw [h3 rfl]
  rfl

/-- Result of `Sheet.validate` as consumed by `GoogleSheet.build`
(src/util/factory.js lines 80-90). -/
inductive ValidateResult where
  | notFound (message : String)
  | valid (apiKeyEnabled : Bool)
deriving DecidableEq, Repr

/-- The action `GoogleSheet.build` takes after validation. -/
inductive BuildAction where
  | plotErrorAction (displayed : String)
  | authenticateAction (force : Bool) (apiKeyEnabled : Bool)
deriving DecidableEq, Repr

/-- Function `GoogleSheet.build` (src/util/factory.js lines 80-90): a
`SheetNotFoundError` from validation is displayed and the pipeline stops;
otherwise authentication proceeds with `force = false`. -/
def googleSheetBuild : ValidateResult → BuildAction
  | .notFound msg => .plotErrorAction (plotErrorText (.sheetNotFound msg))
  | .valid apiKeyEnabled => .authenticateAction false apiKeyEnabled

/-- Modelled from the spec: `Sheet.validate` (src/util/sheet.js is not in the
source pack).  Per spec §4.2 the existence probe fails with
`SheetNotFoundError` when the document does not exist, before any auth is
attempted; otherwise it reports whether API-key access is enabled. -/
def sheetValidate (documentExists : Bool) (apiKeyEnabled : Bool) : ValidateResult :=
  if documentExists then .valid apiKeyEnabled
  else .notFound ExceptionMessages.SHEET_NOT_FOUND

/-- C5: when the referenced document does not exist the pipeline terminates
by displaying the SHEET_NOT_FOUND message and never reaches the
authentication step; authentication is entered only after existence is
confirmed. -/
theorem c5_sheet_not_found_before_auth (apiKeyEnabled : Bool) :
    googleSheetBuild (sheetValidate false apiKeyEnabled) =
      .plotErrorAction ExceptionMessages.SHEET_NOT_FOUND ∧
    (∀ f a, googleSheetBuild (sheetValidate false apiKeyEnabled) ≠ .authenticateAction f a) ∧
    googleSheetBuild (sheetValidate true apiKeyEnabled) =
      .authenticateAction false apiKeyEnabled :=
  ⟨rfl, fun _ _ h => BuildAction.noConfusion h, rfl⟩

/-- Witness for C5 at a concrete flag value. -/
theorem c5_sheet_not_found_before_auth_witness :
    googleSheetBuild (sheetValidate false true) ≠ .authenticateAction true false :=
  (c5_sheet_not_found_before_auth true).2.1 true false

/-- One step of `GoogleSheet.authenticate` (src/util/factory.js lines
108-140): loading the Google client, invoking the external auth capability
with a force flag, and fetching the sheet values. -/
inductive AuthEvent where
  | loadGoogleStep
  | loginStep (force : Bool)
  | fetchSheetValuesStep
deriving DecidableEq, Repr

/-- The step sequence of `GoogleSheet.authenticate` (src/util/factory.js
lines 108-140): without API-key access the external auth capability is
invoked with the given force flag before the sheet values are fetched; with
API-key access the login step is skipped.  The login and fetch transports
live in src/util/googleAuth.js and src/util/sheet.js, which are not in the
source pack; the branching and ordering here are src/util/factory.js. -/
def authenticateEvents (force apiKeyEnabled : Bool) : List AuthEvent :=
  if apiKeyEnabled then [.loadGoogleStep, .fetchSheetValuesStep]
  else [.loadGoogleStep, .loginStep force, .fetchSheetValuesStep]

/-- A failed sheet-values fetch carries an HTTP status. -/
structure FetchFailure where
  status : Nat
deriving DecidableEq, Repr

/-- What `sheet.processSheetResponse` reports back (src/util/sheet.js is not
in the source pack; the callback shapes are fixed by src/util/factory.js
lines 92-106 and 113-119): either the document title, cell values and sheet
names, or a failure with a status. -/
inductive SheetValuesResult where
  | fetched (documentTitle : String) (values : List (List String)) (sheetNames : List String)
  | fetchFailed (e : FetchFailure)

/-- The identity-bearing message of `plotUnauthorizedErrorMessage`
(src/util/factory.js line 400). -/
def unauthorizedMessage (currentUser : String) : String :=
  "<strong>Oops!</strong> Looks like you are accessing this sheet using <b>" ++ currentUser ++
    "</b>, which does not have permission.Try switching to another account."

/-- The outcome of handling a sheet response inside `GoogleSheet.authenticate`
(src/util/factory.js lines 113-119 and 128-134). -/
inductive AuthOutcome where
  | plotted (result : Except MalformedDataError PlotResult)
  | unauthorizedShown (identity : String) (displayed : String)
      (retryForce : Bool) (retryApiKeyEnabled : Bool)
  | genericErrorShown (status : Nat)

/-- Handling of the sheet response (src/util/factory.js lines 113-119): on
success the protected-sheet blips are created; a failure with status 403
plots the unauthorized message, which displays the current identity
(`GoogleAuth.geEmail`, modelled as the `identity` argument, since
src/util/googleAuth.js is not in the source pack) and offers the
switch-account action re-entering `authenticate` with `force = true` and
`apiKeyEnabled = false` (src/util/factory.js lines 416-423); any other
failure plots the generic error message. -/
def processSheetOutcome (identity : String) (sheetName : Option String) :
    SheetValuesResult → AuthOutcome
  | .fetched documentTitle values sheetNames =>
      .plotted (createBlipsForProtectedSheet sheetName documentTitle values sheetNames)
  | .fetchFailed e =>
      if e.status = 403 then
        .unauthorizedShown identity (unauthorizedMessage identity) true false
      else .genericErrorShown e.status

/-- C6: an authenticated sheet fetch rejected with HTTP 403 surfaces the
unauthorized outcome — distinct from the generic failure outcome — exposing
the current identity string in the displayed message, and its switch-account
action re-enters `authenticate` with a forced login (the login step runs
with `force = true` before the sheet values are fetched again); any non-403
failure surfaces as the generic error. -/
theorem c6_unauthorized_branch (identity : String) (sheetName : Option String)
    (e : FetchFailure) :
    (e.status = 403 →
      processSheetOutcome identity sheetName (.fetchFailed e) =
        .unauthorizedShown identity (unauthorizedMessage identity) true false ∧
      authenticateEvents true false =
        [.loadGoogleStep, .loginStep true, .fetchSheetValuesStep]) ∧
    (e.status ≠ 403 →
      processSheetOutcome identity sheetName (.fetchFailed e) =
        .genericErrorShown e.status) := by
  constructor
  · intro h
    rw [processSheetOutcome, if_pos h]
    exact ⟨rfl, rfl⟩
  · intro h
    rw [processSheetOutcome, if_neg h]

/-- Witness for C6 at a concrete 403 failure. -/
theorem c6_unauthorized_branch_witness :
    processSheetOutcome "user@example.com" none (.fetchFailed ⟨403⟩) =
      .unauthorizedShown "user@example.com" (unauthorizedMessage "user@example.com")
        true false :=
  ((c6_unauthorized_branch "user@example.com" none ⟨403⟩).1 rfl).1

/-- Characters admitted by the regex class `[^\\/]`: anything but a slash or
a backslash. -/
def isDomainChar (c : Char) : Bool := !(c == '/' || c == '\\')

/-- The plus-to-space replacement applied before decoding
(src/util/factory.js lines 208-209). -/
def jsPlusToSpace (s : String) : String :=
  ⟨s.data.map (fun c => if c == '+' then ' ' else c)⟩

/-- Whether the regex `.+:\/\/([^\\/]+)` can match with its `://` literal at
position `i`: at least one character before, the three literal characters at
`i`, and at least one domain character after them. -/
def domainMatchAt (l : List Char) (i : Nat) : Bool :=
  (i != 0) && ((l.drop i).take 3 == [':', '/', '/']) &&
    !((l.drop (i + 3)).takeWhile isDomainChar).isEmpty

/-- Function `DomainName` (src/util/factory.js lines 207-211): the capture of the
greedy regex `.+:\/\/([^\\/]+)` over the decoded URL — the run of non-slash
characters after the last eligible `://` — or null when the regex does not
match anywhere.  `decodeURIComponent` is modelled as the identity. -/
def DomainName (url : String) : Option String :=
  let l := (jsPlusToSpace url).data
  match ((List.range l.length).filter (fun i => domainMatchAt l i)).getLast? with
  | none => none
  | some i => some ⟨(l.drop (i + 3)).takeWhile isDomainChar⟩

/-- The outcome of source resolution (src/util/factory.js lines 227-261). -/
inductive SourceOutcome where
  | csvDocument (url : String)
  | jsonFile (url : String)
  | googleSheetSource (sheetId : String) (sheetName : Option String)
  | showEntryForm
deriving DecidableEq, Repr

/-- Function `GoogleSheetInput.build` source resolution (src/util/factory.js lines
227-261).  `domainName` is `DomainName` of the decoded query string;
`sheetId` and `sheetName` are the parsed query parameters (the
src/util/queryParamProcessor.js parser is not in the source pack, so the
parsed parameters are taken as inputs).  JavaScript truthiness is modelled
explicitly: a non-null `domainName` capture always has at least one
character, and a truthy `sheetId` is a nonempty string. -/
def resolveSource (search : String) (sheetId : String) (sheetName : Option String) :
    SourceOutcome :=
  match DomainName search with
  | some domainName =>
    if jsEndsWith sheetId ".csv" then .csvDocument sheetId
    else if jsEndsWith sheetId ".json" then .jsonFile sheetId
    else if jsEndsWith domainName "google.com" && sheetId != "" then
      .googleSheetSource sheetId sheetName
    else .showEntryForm
  | none => .showEntryForm

/-- Counterexample to C4: with the query string `sheetId=foo.csv` — a sheetId
ending in `.csv` but no extractable referring domain in the query string —
resolution shows the entry form instead of selecting the CSV fetcher. -/
theorem c4_counterexample :
    resolveSource "sheetId=foo.csv" "foo.csv" none = .showEntryForm ∧
    SourceOutcome.showEntryForm ≠ SourceOutcome.csvDocument "foo.csv" :=
  ⟨rfl, by decide⟩

/-- C4 (amended): when the decoded query string contains an extractable
referring domain, source resolution applies exactly the stated precedence —
`.csv` suffix first, then `.json` suffix, then a referring domain ending in
`google.com` together with a nonempty sheetId (passing the optional
sheetName), otherwise the entry form; when no referring domain is
extractable, no ingestion is performed and the entry form is shown. -/
theorem c4_source_resolution (search : String) (sheetId : String)
    (sheetName : Option String) :
    (DomainName search = none → resolveSource search sheetId sheetName = .showEntryForm) ∧
    (∀ d, DomainName search = some d →
      (jsEndsWith sheetId ".csv" = true →
        resolveSource search sheetId sheetName = .csvDocument sheetId) ∧
      (jsEndsWith sheetId ".csv" = false → jsEndsWith sheetId ".json" = true →
        resolveSource search sheetId sheetName = .jsonFile sheetId) ∧
      (jsEndsWith sheetId ".csv" = false → jsEndsWith sheetId ".json" = false →
        jsEndsWith d "google.com" = true → sheetId ≠ "" →
        resolveSource search sheetId sheetName = .googleSheetSource sheetId sheetName) ∧
      (jsEndsWith sheetId ".csv" = false → jsEndsWith sheetId ".json" = false →
        (jsEndsWith d "google.com" = false ∨ sheetId = "") →
        resolveSource search sheetId sheetName = .showEntryForm)) := by
  constructor
  · intro h
    simp only [resolveSource, h]
  · intro d hd
    refine ⟨?_, ?_, ?_, ?_⟩
    · intro h1
      simp only [resolveSource, hd]
      rw [if_pos h1]
    · intro h1 h2
      simp only [resolveSource, hd]
      rw [if_neg (by simp [h1]), if_pos h2]
    · intro h1 h2 h3 h4
      simp only [resolveSource, hd]
      rw [if_neg (by simp [h1]), if_neg (by simp [h2]), if_pos (by simp [h3, h4])]
    · intro h1 h2 h3
      have hcond : (jsEndsWith d "google.com" && sheetId != "") = false := by
        rcases h3 with h3 | h3 <;> simp [h3]
      simp only [resolveSource, hd]
      rw [if_neg (by simp [h1]), if_neg (by simp [h2]), if_neg (by simp [hcond])]

/-- Witness for C4 at a concrete reference with an extractable domain and a
`.csv` sheetId. -/
theorem c4_source_resolution_witness :
    resolveSource "sheetId=https://example.com/a.csv" "https://example.com/a.csv" none =
      .csvDocument "https://example.com/a.csv" :=
  (((c4_source_resolution "sheetId=https://example.com/a.csv"
    "https://example.com/a.csv" none).2 "example.com" (by rfl)).1) (by rfl)

/-- Function `FileName` (src/util/factory.js lines 213-221): the final run of
non-slash characters of the decoded URL (the regex `([^\\/]+)$`), or the
whole `url` argument when that regex does not match (URL ending in a slash).
`decodeURIComponent` is modelled as the identity. -/
def FileName (url : String) : String :=
  let l := (jsPlusToSpace url).data
  let seg := (l.reverse.takeWhile isDomainChar).reverse
  if seg.isEmpty then url else ⟨seg⟩

/-- Definition following the words of claim C10: the display title is the
final path segment of the URL with a single trailing `.csv` or `.json`
extension removed. -/
def claimDisplayTitle (url : String) : String :=
  let seg := FileName url
  if jsEndsWith seg ".csv" then jsDropRight seg 4
  else if jsEndsWith seg ".json" then jsDropRight seg 5
  else seg

/-- The title actually displayed for a tabular ingestion, as the amended
claim states it: the final path segment with a trailing `.csv` removed and
then a trailing `.json` removed from the result. -/
def amendedDisplayTitle (url : String) : String :=
  let seg := FileName url
  let s1 := if jsEndsWith seg ".csv" then jsDropRight seg 4 else seg
  if jsEndsWith s1 ".json" then jsDropRight s1 5 else s1

/-- Function `CSVDocument.createBlips` (src/util/factory.js lines 157-169) as a pure
function of the parsed CSV: `data.columns` plus the data rows (column-name
to value mappings, as d3.csv produces them).  Validation and plotRadar
failures are caught by the surrounding try/catch and become the displayed
`RadarException`. -/
def csvCreateBlips (columnNames : List String) (rows : List (List (String × String)))
    (url : String) : Except RadarException PlotResult :=
  match verifyContent columnNames with
  | .error e => .error (.malformedData e.message)
  | .ok _ =>
    match verifyHeaders columnNames with
    | .error e => .error (.malformedData e.message)
    | .ok _ =>
      match plotRadar (FileName url) (rows.map sanitizeRowFlat) (some "CSV File") [] with
      | .error e => .error (.malformedData e.message)
      | .ok res => .ok res

/-- Function `JSONFile.createBlips` (src/util/factory.js lines 186-197): identical to
the CSV path except that the column names are the key set of the first row
and the current sheet name is `JSON File`; `Object.keys` of the first
element of an empty array throws a TypeError, caught as a non-Radar
exception. -/
def jsonCreateBlips (rows : List (List (String × String))) (url : String) :
    Except RadarException PlotResult :=
  match rows with
  | [] => .error .otherFailure
  | r :: _ =>
    match verifyContent (r.map Prod.fst) with
    | .error e => .error (.malformedData e.message)
    | .ok _ =>
      match verifyHeaders (r.map Prod.fst) with
      | .error e => .error (.malformedData e.message)
      | .ok _ =>
        match plotRadar (FileName url) (rows.map sanitizeRowFlat) (some "JSON File") [] with
        | .error e => .error (.malformedData e.message)
        | .ok res => .ok res

/-- Concrete flat rows covering four distinct quadrants and one ring. -/
def fourQuadrantRows : List (List (String × String)) :=
  [[("name", "A"), ("ring", "Adopt"), ("quadrant", "Tools"),
    ("isNew", "true"), ("description", "d")],
   [("name", "B"), ("ring", "Adopt"), ("quadrant", "Techniques"),
    ("isNew", "false"), ("description", "d")],
   [("name", "C"), ("ring", "Adopt"), ("quadrant", "Platforms"),
    ("isNew", "true"), ("description", "d")],
   [("name", "D"), ("ring", "Adopt"), ("quadrant", "Languages"),
    ("isNew", "false"), ("description", "d")]]

/-- Counterexample to C10: a successful CSV ingestion from
`https://example.com/a.json.csv` displays the title `a` — both extensions
are stripped in sequence — while the final path segment with only its
trailing `.csv` extension removed is `a.json`. -/
theorem c10_counterexample :
    (csvCreateBlips ["name", "ring", "quadrant", "isNew", "description"] fourQuadrantRows
        "https://example.com/a.json.csv").toOption.map PlotResult.title = some "a" ∧
    claimDisplayTitle "https://example.com/a.json.csv" = "a.json" ∧
    ("a" : String) ≠ "a.json" :=
  ⟨rfl, rfl, by decide⟩

/-- C10 (amended): for every successful CSV or JSON ingestion, the Radar
alternativeSheetNames list is empty, its currentSheetName is the literal
`CSV File` or `JSON File` respectively, and the display title is the URL
final path segment with a trailing `.csv` removed and then a trailing
`.json` removed from the result. -/
theorem c10_tabular_metadata (columnNames : List String)
    (rows : List (List (String × String))) (url : String) (res : PlotResult) :
    (csvCreateBlips columnNames rows url = .ok res →
      res.radar.alternativeSheetNames = [] ∧
      res.radar.currentSheetName = some "CSV File" ∧
      res.title = amendedDisplayTitle url) ∧
    (jsonCreateBlips rows url = .ok res →
      res.radar.alternativeSheetNames = [] ∧
      res.radar.currentSheetName = some "JSON File" ∧
      res.title = amendedDisplayTitle url) := by
  constructor
  · intro h
    rw [csvCreateBlips] at h
    cases hvc : verifyContent columnNames with
    | error e => rw [hvc] at h; exact absurd h (by simp)
    | ok u =>
      rw [hvc] at h
      dsimp only at h
      cases hvh : verifyHeaders columnNames with
      | error e => rw [hvh] at h; exact absurd h (by simp)
      | ok u =>
        rw [hvh] at h
        dsimp only at h
        cases hp : plotRadar (FileName url) (rows.map sanitizeRowFlat) (some "CSV File") [] with
        | error e => rw [hp] at h; exact absurd h (by simp)
        | ok r =>
          rw [hp] at h
          dsimp only at h
          injection h with h
          subst h
          obtain ⟨ht, hc, ha, -⟩ := plotRadar_ok _ _ _ _ _ hp
          exact ⟨ha, hc, ht⟩
  · intro h
    rw [jsonCreateBlips.eq_def] at h
    cases rows with
    | nil => exact absurd h (by simp)
    | cons r rest =>
      dsimp only at h
      cases hvc : verifyContent (r.map Prod.fst) with
      | error e => rw [hvc] at h; exact absurd h (by simp)
      | ok u =>
        rw [hvc] at h
        dsimp only at h
        cases hvh : verifyHeaders (r.map Prod.fst) with
        | error e => rw [hvh] at h; exact absurd h (by simp)
        | ok u =>
          rw [hvh] at h
          dsimp only at h
          cases hp : plotRadar (FileName url) ((r :: rest).map sanitizeRowFlat)
              (some "JSON File") [] with
          | error e => rw [hp] at h; exact absurd h (by simp)
          | ok r2 =>
            rw [hp] at h
            dsimp only at h
            injection h with h
            subst h
            obtain ⟨ht, hc, ha, -⟩ := plotRadar_ok _ _ _ _ _ hp
            exact ⟨ha, hc, ht⟩

/-- The result of a concrete successful JSON ingestion. -/
def jsonDemoResult : PlotResult :=
  (jsonCreateBlips fourQuadrantRows "https://example.com/data.json").toOption.getD
    ⟨"", ⟨[], none, []⟩⟩

/-- Witness for C10 at the concrete JSON ingestion. -/
theorem c10_tabular_metadata_witness :
    jsonDemoResult.radar.alternativeSheetNames = [] ∧
    jsonDemoResult.radar.currentSheetName = some "JSON File" ∧
    jsonDemoResult.title = amendedDisplayTitle "https://example.com/data.json" :=
  (c10_tabular_metadata [] fourQuadrantRows "https://example.com/data.json"
    jsonDemoResult).2 (by rfl)

/-- Observable steps of one ingestion run, in execution order. -/
inductive PipeEvent where
  | verifyContentStep
  | verifyHeadersStep
  | sanitizeStep (i : Nat)
  | radarHandedToRenderer
  | errorShownStep (message : String)
  | exceptionRaised (message : String)
deriving DecidableEq, Repr

/-- Whether an event is the sanitization of a row. -/
def isSanitizeStep : PipeEvent → Bool
  | .sanitizeStep _ => true
  | _ => false

/-- Combined validator verdict in call-site order (verifyContent, then
verifyHeaders). -/
def validationOk (columnNames : List String) : Bool :=
  match verifyContent columnNames, verifyHeaders columnNames with
  | .ok _, .ok _ => true
  | _, _ => false

/-- Every sanitize event of the trace is preceded by both validator steps. -/
def sanitizeAfterChecks (tr : List PipeEvent) : Prop :=
  ∀ k e, tr.get? k = some e → isSanitizeStep e = true →
    ∃ a b, a < k ∧ b < k ∧ tr.get? a = some .verifyContentStep ∧
      tr.get? b = some .verifyHeadersStep

/-- No row was sanitized and no Radar was handed to the renderer. -/
def noPartialWork (tr : List PipeEvent) : Prop :=
  (∀ e ∈ tr, isSanitizeStep e = false) ∧ PipeEvent.radarHandedToRenderer ∉ tr

/-- The event trace of the shared tabular `createBlips` body (the CSV and
JSON paths, src/util/factory.js lines 157-169 and 186-197, are textually
identical up to the column-name source and the current sheet name):
validation first, then one sanitization per row, then the hand-off to the
renderer or the catch-and-display of the error. -/
def tabularCreateBlipsTrace (columnNames : List String)
    (rows : List (List (String × String))) (url : String) (currentName : String) :
    List PipeEvent :=
  match verifyContent columnNames with
  | .error e =>
    [.verifyContentStep, .errorShownStep (plotErrorText (.malformedData e.message))]
  | .ok _ =>
    match verifyHeaders columnNames with
    | .error e =>
      [.verifyContentStep, .verifyHeadersStep,
       .errorShownStep (plotErrorText (.malformedData e.message))]
    | .ok _ =>
      [.verifyContentStep, .verifyHeadersStep] ++
        (List.range rows.length).map PipeEvent.sanitizeStep ++
        (match plotRadar (FileName url) (rows.map sanitizeRowFlat) (some currentName) [] with
         | .error e => [.errorShownStep (plotErrorText (.malformedData e.message))]
         | .ok _ => [.radarHandedToRenderer])

/-- The event trace of `CSVDocument.createBlips`. -/
def csvCreateBlipsTrace (columnNames : List String)
    (rows : List (List (String × String))) (url : String) : List PipeEvent :=
  tabularCreateBlipsTrace columnNames rows url "CSV File"

/-- The event trace of `JSONFile.createBlips`; on an empty array the
TypeError from `Object.keys` of the first element is caught and displayed
before anything else happens. -/
def jsonCreateBlipsTrace (rows : List (List (String × String))) (url : String) :
    List PipeEvent :=
  match rows with
  | [] => [.errorShownStep (plotErrorText .otherFailure)]
  | r :: _ => tabularCreateBlipsTrace (r.map Prod.fst) rows url "JSON File"

/-- The event trace of `createBlipsForProtectedSheet` (src/util/factory.js
lines 92-106): the `values.forEach` loop reruns both validator checks once
per row (always on `values[0]`), aborting at the first failure — this path
has no try/catch, so a failure propagates as a raised exception; then the
rows after the shifted-off header are sanitized and plotted. -/
def protectedSheetTrace (sheetName : Option String) (documentTitle : String)
    (values : List (List String)) (sheetNames : List String) : List PipeEvent :=
  let sn := resolveSheetName sheetName sheetNames
  match values with
  | [] =>
    match plotRadar (documentTitle ++ " - " ++ jsStr sn) [] sn sheetNames with
    | .error e => [.exceptionRaised e.message]
    | .ok _ => [.radarHandedToRenderer]
  | header :: rest =>
    match verifyContent header with
    | .error e => [.verifyContentStep, .exceptionRaised e.message]
    | .ok _ =>
      match verifyHeaders header with
      | .error e => [.verifyContentStep, .verifyHeadersStep, .exceptionRaised e.message]
      | .ok _ =>
        ((header :: rest).map
            (fun _ => [PipeEvent.verifyContentStep, PipeEvent.verifyHeadersStep])).flatten ++
          (List.range rest.length).map PipeEvent.sanitizeStep ++
          (match plotRadar (documentTitle ++ " - " ++ jsStr sn)
              (rest.map (fun row => sanitizeForProtectedSheet row header)) sn sheetNames with
           | .error e => [.exceptionRaised e.message]
           | .ok _ => [.radarHandedToRenderer])

theorem sanitizeAfterChecks_of_prefix (rest : List PipeEvent) :
    sanitizeAfterChecks (.verifyContentStep :: .verifyHeadersStep :: rest) := by
  intro k e hk hs
  match k with
  | 0 =>
    injection hk with hk
    rw [← hk] at hs
    exact absurd hs (by simp [isSanitizeStep])
  | 1 =>
    injection hk with hk
    rw [← hk] at hs
    exact absurd hs (by simp [isSanitizeStep])
  | (n + 2) => exact ⟨0, 1, by omega, by omega, rfl, rfl⟩

theorem sanitizeAfterChecks_of_noSanitize (tr : List PipeEvent)
    (h : ∀ e ∈ tr, isSanitizeStep e = false) : sanitizeAfterChecks tr := by
  intro k e hk hs
  rw [h e (List.get?_mem hk)] at hs
  exact absurd hs (by simp)

theorem tabularTrace_sanitizeAfterChecks (columnNames : List String)
    (rows : List (List (String × String))) (url : String) (currentName : String) :
    sanitizeAfterChecks (tabularCreateBlipsTrace columnNames rows url currentName) := by
  rw [tabularCreateBlipsTrace]
  cases hvc : verifyContent columnNames with
  | error e =>
    apply sanitizeAfterChecks_of_noSanitize
    intro x hx
    simp only [List.mem_cons, List.not_mem_nil, or_false] at hx
    rcases hx with rfl | rfl <;> rfl
  | ok u =>
    dsimp only
    cases hvh : verifyHeaders columnNames with
    | error e =>
      apply sanitizeAfterChecks_of_noSanitize
      intro x hx
      simp only [List.mem_cons, List.not_mem_nil, or_false] at hx
      rcases hx with rfl | rfl | rfl <;> rfl
    | ok u =>
      exact sanitizeAfterChecks_of_prefix _

theorem tabularTrace_noPartial (columnNames : List String)
    (rows : List (List (String × String))) (url : String) (currentName : String)
    (h : validationOk columnNames = false) :
    noPartialWork (tabularCreateBlipsTrace columnNames rows url currentName) := by
  rw [tabularCreateBlipsTrace]
  cases hvc : verifyContent columnNames with
  | error e =>
    constructor
    · intro x hx
      simp only [List.mem_cons, List.not_mem_nil, or_false] at hx
      rcases hx with rfl | rfl <;> rfl
    · intro hmem
      simp at hmem
  | ok u =>
    dsimp only
    cases hvh : verifyHeaders columnNames with
    | error e =>
      constructor
      · intro x hx
        simp only [List.mem_cons, List.not_mem_nil, or_false] at hx
        rcases hx with rfl | rfl | rfl <;> rfl
      · intro hmem
        simp at hmem
    | ok u =>
      rw [validationOk, hvc, hvh] at h
      exact absurd h (by simp)

theorem protectedTrace_sanitizeAfterChecks (sheetName : Option String)
    (documentTitle : String) (values : List (List String)) (sheetNames : List String) :
    sanitizeAfterChecks (protectedSheetTrace sheetName documentTitle values sheetNames) := by
  rw [protectedSheetTrace.eq_def]
  cases values with
  | nil =>
    dsimp only
    cases plotRadar (documentTitle ++ " - " ++ jsStr (resolveSheetName sheetName sheetNames))
        [] (resolveSheetName sheetName sheetNames) sheetNames with
    | error e =>
      apply sanitizeAfterChecks_of_noSanitize
      intro x hx
      simp only [List.mem_cons, List.not_mem_nil, or_false] at hx
      subst hx
      rfl
    | ok r =>
      apply sanitizeAfterChecks_of_noSanitize
      intro x hx
      simp only [List.mem_cons, List.not_mem_nil, or_false] at hx
      subst hx
      rfl
  | cons header rest =>
    dsimp only
    cases hvc : verifyContent header with
    | error e =>
      apply sanitizeAfterChecks_of_noSanitize
      intro x hx
      simp only [List.mem_cons, List.not_mem_nil, or_false] at hx
      rcases hx with rfl | rfl <;> rfl
    | ok u =>
      dsimp only
      cases hvh : verifyHeaders header with
      | error e =>
        apply sanitizeAfterChecks_of_noSanitize
        intro x hx
        simp only [List.mem_cons, List.not_mem_nil, or_false] at hx
        rcases hx with rfl | rfl | rfl <;> rfl
      | ok u =>
        exact sanitizeAfterChecks_of_prefix _

theorem protectedTrace_noPartial (sheetName : Option String) (documentTitle : String)
    (header : List String) (rest : List (List String)) (sheetNames : List String)
    (h : validationOk header = false) :
    noPartialWork (protectedSheetTrace sheetName documentTitle (header :: rest) sheetNames) := by
  rw [protectedSheetTrace.eq_def]
  dsimp only
  cases hvc : verifyContent header with
  | error e =>
    constructor
    · intro x hx
      simp only [List.mem_cons, List.not_mem_nil, or_false] at hx
      rcases hx with rfl | rfl <;> rfl
    · intro hmem
      simp at hmem
  | ok u =>
    dsimp only
    cases hvh : verifyHeaders header with
    | error e =>
      constructor
      · intro x hx
        simp only [List.mem_cons, List.not_mem_nil, or_false] at hx
        rcases hx with rfl | rfl | rfl <;> rfl
      · intro hmem
        simp at hmem
    | ok u =>
      rw [validationOk, hvc, hvh] at h
      exact absurd h (by simp)

/-- C9: in every ingestion run (CSV, JSON or protected sheet), the header and
content checks complete before any row is sanitized — every sanitize event is
preceded by both validator steps — and on a validation failure no row is
sanitized and no Radar is constructed or handed to the rendering
collaborator. -/
theorem c9_validation_before_sanitization (columnNames : List String)
    (rows : List (List (String × String))) (url : String) (sheetName : Option String)
    (documentTitle : String) (values : List (List String)) (sheetNames : List String) :
    sanitizeAfterChecks (csvCreateBlipsTrace columnNames rows url) ∧
    (validationOk columnNames = false →
      noPartialWork (csvCreateBlipsTrace columnNames rows url)) ∧
    sanitizeAfterChecks (jsonCreateBlipsTrace rows url) ∧
    (∀ r rest2, rows = r :: rest2 → validationOk (r.map Prod.fst) = false →
      noPartialWork (jsonCreateBlipsTrace rows url)) ∧
    sanitizeAfterChecks (protectedSheetTrace sheetName documentTitle values sheetNames) ∧
    (∀ hrow vrest, values = hrow :: vrest → validationOk hrow = false →
      noPartialWork (protectedSheetTrace sheetName documentTitle values sheetNames)) := by
  refine ⟨tabularTrace_sanitizeAfterChecks _ _ _ _,
    fun h => tabularTrace_noPartial _ _ _ _ h, ?_, ?_, protectedTrace_sanitizeAfterChecks _ _ _ _,
    ?_⟩
  · rw [jsonCreateBlipsTrace.eq_def]
    cases rows with
    | nil =>
      apply sanitizeAfterChecks_of_noSanitize
      intro x hx
      simp only [List.mem_cons, List.not_mem_nil, or_false] at hx
      subst hx
      rfl
    | cons r rest2 => exact tabularTrace_sanitizeAfterChecks _ _ _ _
  · intro r rest2 hrows h
    subst hrows
    rw [jsonCreateBlipsTrace.eq_def]
    exact tabularTrace_noPartial _ _ _ _ h
  · intro hrow vrest hvals h
    subst hvals
    exact protectedTrace_noPartial _ _ _ _ _ h

/-- Witness for C9: with an empty column-name list validation fails and the
CSV trace hands no Radar to the renderer. -/
theorem c9_validation_before_sanitization_witness :
    PipeEvent.radarHandedToRenderer ∉ csvCreateBlipsTrace [] [] "u" :=
  ((c9_validation_before_sanitization [] [] "u" none "t" [] []).2.1 (by rfl)).2
